import Mathlib

/-!
Shallow embedding of the RAG-ChatBot repository (Python) and proofs about it.

Conventions used throughout:
* Python strings are modelled as `List Char` where individual characters
  matter (chunking, truncation) and as `String` where only identity matters
  (documents stored in a collection).
* Python exceptions are modelled with `Except String`: `.error e` means the
  function raised, `.ok v` means it returned `v` normally.
* External services (the embedding API, the ChromaDB similarity search, the
  chat-completion model) are parameters (oracles) of the modelled functions:
  a fallible backend is a function into `Except String _`.
* Where a function's observable effects matter (did it call the embedding
  backend? did it invoke the chat model?) the model additionally returns a
  call log / invocation flag.
-/

namespace RAGChatBot

/-! ## DocumentLoader (src/document_loader.py) -/

/-- The chunking loop of `DocumentLoader._process_text`:
`for i in range(0, len(text), self.chunk_size): chunks.append(text[i:i+chunk_size])`.
Written with an explicit fuel argument (the loop executes at most
`len(text)` iterations when `chunk_size > 0`); each iteration emits the
slice `text[i:i+chunk_size]`, i.e. `take chunk_size` of the remaining text,
and advances by `chunk_size` characters. -/
def chunkLoop (chunk_size : Nat) : Nat → List Char → List (List Char)
  | _, [] => []
  | 0, _ :: _ => []
  | fuel + 1, c :: cs =>
    ((c :: cs).take chunk_size) :: chunkLoop chunk_size fuel ((c :: cs).drop chunk_size)

/-- `DocumentLoader._process_text` on already-read text.  The loader object
carries both `self.chunk_size` and `self.chunk_overlap` (set in
`DocumentLoader.__init__`), but the loop body reads only `self.chunk_size`:
the `chunk_overlap` field is never used by `_process_text`. -/
def process_text (chunk_size chunk_overlap : Nat) (text : List Char) : List (List Char) :=
  chunkLoop chunk_size text.length text

/-- Whether every pair of consecutive chunks textually overlaps by exactly
`o` characters: the last `o` characters of each chunk equal the first `o`
characters of the next one.  (This is what "consecutive chunks overlap by
the configured amount" asserts of a windowed chunker.) -/
def consecOverlap (o : Nat) : List (List Char) → Bool
  | a :: b :: rest => (a.drop (a.length - o) == b.take o) && consecOverlap o (b :: rest)
  | _ => true

theorem chunkLoop_flatten (chunk_size : Nat) (hc : 0 < chunk_size) :
    ∀ (fuel : Nat) (s : List Char), s.length ≤ fuel →
      (chunkLoop chunk_size fuel s).flatten = s := by
  intro fuel
  induction fuel with
  | zero =>
    intro s hs
    match s with
    | [] => rfl
    | c :: cs => simp at hs
  | succ n ih =>
    intro s hs
    match s with
    | [] => rfl
    | c :: cs =>
      simp only [chunkLoop, List.flatten_cons]
      rw [ih ((c :: cs).drop chunk_size)]
      · exact List.take_append_drop _ _
      · have hlen : ((c :: cs).drop chunk_size).length = (c :: cs).length - chunk_size :=
          List.length_drop _ _
        have : (c :: cs).length - chunk_size ≤ n := by
          have h1 : (c :: cs).length ≤ n + 1 := hs
          omega
        omega

theorem chunkLoop_mem_length (chunk_size : Nat) :
    ∀ (fuel : Nat) (s : List Char) (ch : List Char),
      ch ∈ chunkLoop chunk_size fuel s → ch.length ≤ chunk_size := by
  intro fuel
  induction fuel with
  | zero =>
    intro s ch h
    match s with
    | [] => simp [chunkLoop] at h
    | c :: cs => simp [chunkLoop] at h
  | succ n ih =>
    intro s ch h
    match s with
    | [] => simp [chunkLoop] at h
    | c :: cs =>
      simp only [chunkLoop, List.mem_cons] at h
      rcases h with h | h
      · subst h
        simpa using List.length_take_le chunk_size (c :: cs)
      · exact ih _ _ h

theorem chunkLoop_getD (chunk_size : Nat) (hc : 0 < chunk_size) :
    ∀ (fuel : Nat) (s : List Char), s.length ≤ fuel → ∀ (k : Nat),
      (chunkLoop chunk_size fuel s).getD k [] = (s.drop (chunk_size * k)).take chunk_size := by
  intro fuel
  induction fuel with
  | zero =>
    intro s hs k
    match s with
    | [] => simp [chunkLoop]
    | c :: cs => simp at hs
  | succ n ih =>
    intro s hs k
    match s with
    | [] => simp [chunkLoop]
    | c :: cs =>
      match k with
      | 0 => simp [chunkLoop]
      | k + 1 =>
        simp only [chunkLoop, List.getD_cons_succ]
        rw [ih ((c :: cs).drop chunk_size)]
        · rw [List.drop_drop]
          congr 2
          ring
        · have hlen : ((c :: cs).drop chunk_size).length = (c :: cs).length - chunk_size :=
            List.length_drop _ _
          have h1 : (c :: cs).length ≤ n + 1 := hs
          omega

/-- C1 counterexample input: text "abcd", chunk size 2, overlap 1
(which satisfies the claim's side conditions 0 < c and 0 ≤ o < c).
The chunker produces ["ab", "cd"]: the last character of "ab" is 'b' while
the first character of "cd" is 'c', so consecutive chunks do not overlap by
the configured 1 character. -/
theorem process_text_overlap_counterexample :
    0 < 2 ∧ 1 < 2 ∧
    process_text 2 1 ['a', 'b', 'c', 'd'] = [['a', 'b'], ['c', 'd']] ∧
    consecOverlap 1 (process_text 2 1 ['a', 'b', 'c', 'd']) = false := by
  decide

/-- C1 (amended): `_process_text` ignores the configured overlap entirely:
for every chunk size `c > 0` and every overlap setting `o`, chunk `k` is the
slice `text[c*k : c*k + c]`, so consecutive chunks are adjacent disjoint
windows (stride `c`, overlap 0). -/
theorem process_text_chunks_adjacent (chunk_size chunk_overlap : Nat) (text : List Char)
    (hc : 0 < chunk_size) :
    ∀ k : Nat, (process_text chunk_size chunk_overlap text).getD k [] =
      (text.drop (chunk_size * k)).take chunk_size := by
  intro k
  exact chunkLoop_getD chunk_size hc text.length text le_rfl k

/-- Witness for `process_text_chunks_adjacent` at text "abcd", c = 2, o = 1, k = 1. -/
theorem process_text_chunks_adjacent_witness :
    (process_text 2 1 ['a', 'b', 'c', 'd']).getD 1 [] =
      ((['a', 'b', 'c', 'd'] : List Char).drop (2 * 1)).take 2 :=
  process_text_chunks_adjacent 2 1 ['a', 'b', 'c', 'd'] (by decide) 1

/-- C2: for chunk size `c > 0` (any overlap setting), the chunks of
`_process_text` concatenate back to the input exactly (with zero overlap the
chunks' unique spans are the chunks themselves), every chunk has length at
most `c`, and the empty string produces no chunks. -/
theorem process_text_coverage (chunk_size chunk_overlap : Nat) (text : List Char)
    (hc : 0 < chunk_size) :
    (process_text chunk_size chunk_overlap text).flatten = text ∧
    (∀ ch ∈ process_text chunk_size chunk_overlap text, ch.length ≤ chunk_size) ∧
    process_text chunk_size chunk_overlap [] = [] := by
  refine ⟨chunkLoop_flatten chunk_size hc text.length text le_rfl, ?_, rfl⟩
  intro ch hch
  exact chunkLoop_mem_length chunk_size text.length text ch hch

/-- Witness for `process_text_coverage` at text "abc", c = 2, o = 1 (the
chunk-length component instantiated at the first chunk, ['a', 'b']). -/
theorem process_text_coverage_witness :
    (process_text 2 1 ['a', 'b', 'c']).flatten = ['a', 'b', 'c'] ∧
    (['a', 'b'] : List Char).length ≤ 2 ∧
    process_text 2 1 [] = [] :=
  ⟨(process_text_coverage 2 1 ['a', 'b', 'c'] (by decide)).1,
   (process_text_coverage 2 1 ['a', 'b', 'c'] (by decide)).2.1 ['a', 'b'] (by decide),
   (process_text_coverage 2 1 ['a', 'b', 'c'] (by decide)).2.2⟩

/-! ## CSVAnalyzer (src/csv_analyzer.py)

A single numeric column is modelled as a `List ℚ` (the concrete values of
the claims are small integers, exactly representable, and every comparison
involved is far from equality, so exact rational arithmetic reproduces the
float computation's branch outcomes). -/

namespace CSVAnalyzer

/-- `self.data[col].mean()`. -/
def colMean (xs : List ℚ) : ℚ := xs.sum / (xs.length : ℚ)

/-- The square of `self.data[col].std()`: pandas `std()` uses the sample
(ddof = 1) variance, `sum((x - mean)^2) / (n - 1)`.  We work with the
variance rather than its square root so that the development stays inside
ℚ. -/
def sampleVar (xs : List ℚ) : ℚ :=
  (xs.map (fun x => (x - colMean xs) ^ 2)).sum / ((xs.length : ℚ) - 1)

/-- `CSVAnalyzer.detect_anomalies` restricted to one numeric column:
`z_scores = np.abs((col - col.mean()) / col.std()); indices where z_scores > t`.
The comparison `|x - mean| / std > t` is stated in its squared form
`(x - mean)^2 > t^2 * var`, which is equivalent whenever `std > 0` and
`t ≥ 0` (and when the column is constant, `var = 0`, both forms flag
nothing, matching pandas where `0/0 = NaN` compares false). -/
def detect_anomalies (t : ℚ) (xs : List ℚ) : List Nat :=
  (List.range xs.length).filter
    (fun i => decide (t ^ 2 * sampleVar xs < (xs.getD i 0 - colMean xs) ^ 2))

/-- The `"min"` entry of `CSVAnalyzer.get_basic_stats` for one column:
`float(self.data[col].min())`. -/
def basic_stats_min (xs : List ℚ) : ℚ :=
  match xs with
  | [] => 0
  | x :: rest => rest.foldl min x

/-- The `"max"` entry of `CSVAnalyzer.get_basic_stats` for one column:
`float(self.data[col].max())`. -/
def basic_stats_max (xs : List ℚ) : ℚ :=
  match xs with
  | [] => 0
  | x :: rest => rest.foldl max x

/-- The `data_quality.total_rows` entry of `CSVAnalyzer.generate_insights`:
`len(self.data)`, the number of rows of the loaded frame (here, of the
single column). -/
def total_rows (xs : List ℚ) : Nat := xs.length

end CSVAnalyzer

theorem colMean_eval : CSVAnalyzer.colMean [1, 2, 3, 4, 100] = 22 := by
  norm_num [CSVAnalyzer.colMean]

theorem sampleVar_eval : CSVAnalyzer.sampleVar [1, 2, 3, 4, 100] = 7610 / 4 := by
  norm_num [CSVAnalyzer.sampleVar, CSVAnalyzer.colMean]

theorem detect_anomalies_eval : CSVAnalyzer.detect_anomalies 3 [1, 2, 3, 4, 100] = [] := by
  unfold CSVAnalyzer.detect_anomalies
  simp only [colMean_eval, sampleVar_eval]
  norm_num [List.range_succ, List.filter_cons, List.filter_nil]

/-- C5 counterexample: on the column [1, 2, 3, 4, 100] at threshold 3.0 the
row index of the value 100 (index 4) is NOT flagged: its z-score is
78 / sqrt(1902.5) ≈ 1.79 < 3 (with 5 rows and sample std, no z-score can
reach 3). -/
theorem detect_anomalies_counterexample :
    (CSVAnalyzer.detect_anomalies 3 [1, 2, 3, 4, 100]).contains 4 = false := by
  rw [detect_anomalies_eval]
  rfl

/-- C5 (amended): on the column [1, 2, 3, 4, 100], `detect_anomalies` at
z-score threshold 3.0 returns the empty list for the column (the z-score of
100 is ≈ 1.79 < 3); `get_basic_stats` reports min = 1 and max = 100; and
`generate_insights` reports `data_quality.total_rows = 5`. -/
theorem csv_insight_scenario :
    CSVAnalyzer.detect_anomalies 3 [1, 2, 3, 4, 100] = [] ∧
    CSVAnalyzer.basic_stats_min [1, 2, 3, 4, 100] = 1 ∧
    CSVAnalyzer.basic_stats_max [1, 2, 3, 4, 100] = 100 ∧
    CSVAnalyzer.total_rows [1, 2, 3, 4, 100] = 5 := by
  refine ⟨detect_anomalies_eval, ?_, ?_, rfl⟩
  · norm_num [CSVAnalyzer.basic_stats_min, List.foldl, min_def]
  · norm_num [CSVAnalyzer.basic_stats_max, List.foldl, max_def]

/-! ## Context assembly and truncation (desktop_app.py) -/

/-- The ellipsis marker `"..."` appended by the truncation step. -/
def ELLIPSIS : List Char := ['.', '.', '.']

/-- The truncation step shared by `TradingAssistantApp.query_textbook` and
`TradingAssistantApp.query_with_rules`:
`if len(context) > maxLen: context = context[:maxLen] + "..."`. -/
def truncate_context (maxLen : Nat) (context : List Char) : List Char :=
  if maxLen < context.length then context.take maxLen ++ ELLIPSIS else context

/-- `query_textbook` truncates its assembled context at 2000 characters. -/
def query_textbook_truncate (context : List Char) : List Char :=
  truncate_context 2000 context

/-- `query_with_rules` truncates its assembled context at 3000 characters. -/
def query_with_rules_truncate (context : List Char) : List Char :=
  truncate_context 3000 context

theorem truncate_context_spec (maxLen : Nat) (context : List Char) :
    (maxLen < context.length →
      (truncate_context maxLen context).length = maxLen + ELLIPSIS.length ∧
      ELLIPSIS <:+ truncate_context maxLen context) ∧
    (context.length ≤ maxLen → truncate_context maxLen context = context) := by
  constructor
  · intro h
    rw [truncate_context, if_pos h]
    constructor
    · rw [List.length_append, List.length_take]
      omega
    · exact List.suffix_append _ _
  · intro h
    rw [truncate_context, if_neg (by omega)]

/-- C4: for every assembled context string, on the textbook path (maximum
2000) and on the rules+data path (maximum 3000): if the context is longer
than the maximum, the output has length exactly max + len("...") and ends
with "..."; otherwise the output is the context unmodified. -/
theorem context_truncation (context : List Char) :
    (2000 < context.length →
      (query_textbook_truncate context).length = 2000 + ELLIPSIS.length ∧
      ELLIPSIS <:+ query_textbook_truncate context) ∧
    (context.length ≤ 2000 → query_textbook_truncate context = context) ∧
    (3000 < context.length →
      (query_with_rules_truncate context).length = 3000 + ELLIPSIS.length ∧
      ELLIPSIS <:+ query_with_rules_truncate context) ∧
    (context.length ≤ 3000 → query_with_rules_truncate context = context) := by
  refine ⟨(truncate_context_spec 2000 context).1, (truncate_context_spec 2000 context).2,
    (truncate_context_spec 3000 context).1, (truncate_context_spec 3000 context).2⟩

/-- Witness for `context_truncation`: a context of 3001 characters is
truncated on both paths; a context of 10 characters passes through both
paths unmodified. -/
theorem context_truncation_witness :
    ((query_textbook_truncate (List.replicate 3001 'a')).length = 2000 + ELLIPSIS.length ∧
      ELLIPSIS <:+ query_textbook_truncate (List.replicate 3001 'a')) ∧
    ((query_with_rules_truncate (List.replicate 3001 'a')).length = 3000 + ELLIPSIS.length ∧
      ELLIPSIS <:+ query_with_rules_truncate (List.replicate 3001 'a')) ∧
    query_textbook_truncate (List.replicate 10 'a') = List.replicate 10 'a' ∧
    query_with_rules_truncate (List.replicate 10 'a') = List.replicate 10 'a' :=
  ⟨(context_truncation (List.replicate 3001 'a')).1
      (by simp only [List.length_replicate]; omega),
   (context_truncation (List.replicate 3001 'a')).2.2.1
      (by simp only [List.length_replicate]; omega),
   (context_truncation (List.replicate 10 'a')).2.1
      (by simp only [List.length_replicate]; omega),
   (context_truncation (List.replicate 10 'a')).2.2.2
      (by simp only [List.length_replicate]; omega)⟩

/-! ## VectorStoreHandler (src/vector_store.py)

The handler's mutable state is its ChromaDB collection handle:
`self.collection : Option (List String)` — `none` before
`create_or_load_store` has been called, `some docs` afterwards, where
`docs` are the stored document texts (ids/embeddings/metadata do not matter
for the claims).  The OpenAI embedding backend is an oracle
`emb : List String → Except String (List (List ℚ))` (respectively
`String → Except String (List ℚ)` for a single query text); `.error`
models the API call raising. -/

namespace VectorStoreHandler

/-- The batch loop of `add_documents`:
`for i in range(0, len(documents), 100): batch = documents[i:i+100]; embed; collection.add`.
Fuel-indexed (the loop runs at most `len documents` iterations since each
iteration consumes 100 ≥ 1 documents).  Returns the outcome together with
the updated collection contents and the log of embedding-backend calls made
(one entry per `openai_client.embeddings.create` invocation).  An embedding
failure is re-raised (`except ... raise`), leaving the collection with the
batches committed so far. -/
def addBatches (emb : List String → Except String (List (List ℚ))) :
    Nat → List String → List String → List (List String) →
    Except String Unit × List String × List (List String)
  | _, coll, [], log => (Except.ok (), coll, log)
  | 0, coll, _ :: _, log => (Except.ok (), coll, log)
  | fuel + 1, coll, d :: ds, log =>
    let batch := (d :: ds).take 100
    match emb batch with
    | Except.error e => (Except.error e, coll, log ++ [batch])
    | Except.ok _ => addBatches emb fuel (coll ++ batch) ((d :: ds).drop 100) (log ++ [batch])

/-- `VectorStoreHandler.add_documents`.  Mirrors the source's control flow:
`if not documents: return` (before touching the collection or the backend);
`if not self.collection: raise ValueError(...)`; then the batch loop.
Returns the outcome (`.error` = the call raised), the resulting collection
state, and the log of embedding-backend calls. -/
def add_documents (emb : List String → Except String (List (List ℚ)))
    (collection : Option (List String)) (documents : List String) :
    Except String Unit × Option (List String) × List (List String) :=
  if documents = [] then (Except.ok (), collection, [])
  else
    match collection with
    | none => (Except.error "Collection not initialized. Call create_or_load_store first.",
               none, [])
    | some coll =>
      match addBatches emb documents.length coll documents [] with
      | (out, coll', log) => (out, some coll', log)

/-- The body of `VectorStoreHandler.query` (the code inside the `try`):
raise if the collection is not initialized, embed the query text (an
embedding failure raises), run the similarity search
(`search : query embedding → n_results → results['documents']`, a list of
per-query document lists), and extract `results['documents'][0]` when the
documents list is non-empty, `[]` otherwise. -/
def query_inner (emb : String → Except String (List ℚ))
    (search : List ℚ → Nat → List (List String))
    (collection : Option (List String)) (query_text : String) (n_results : Nat) :
    Except String (List String) :=
  match collection with
  | none => Except.error "Collection not initialized. Call create_or_load_store first."
  | some _ =>
    match emb query_text with
    | Except.error e => Except.error e
    | Except.ok query_embedding =>
      match search query_embedding n_results with
      | [] => Except.ok []
      | docs0 :: _ => Except.ok docs0

/-- `VectorStoreHandler.query`: the whole body is wrapped in
`try ... except Exception: return []`, so every internal exception —
including the embedding backend raising and the uninitialized-collection
`ValueError` — is caught and the function returns `[]` to its caller;
no exception ever escapes (the function is total). -/
def query (emb : String → Except String (List ℚ))
    (search : List ℚ → Nat → List (List String))
    (collection : Option (List String)) (query_text : String) (n_results : Nat) :
    List String :=
  match query_inner emb search collection query_text n_results with
  | Except.ok docs => docs
  | Except.error _ => []

end VectorStoreHandler

/-- C6 counterexample: with an initialized collection holding one document
and an embedding backend that raises ("API down"), `query`'s body raises
internally, but the error does NOT propagate to the caller: the `except`
clause swallows it and the call returns the normal result `[]`. -/
theorem query_swallows_embedding_error :
    VectorStoreHandler.query_inner (fun _ => Except.error "API down")
      (fun _ _ => [["doc"]]) (some ["doc"]) "q" 5 = Except.error "API down" ∧
    VectorStoreHandler.query (fun _ => Except.error "API down")
      (fun _ _ => [["doc"]]) (some ["doc"]) "q" 5 = [] := by
  exact ⟨rfl, rfl⟩

/-- C6 (amended): an embedding-backend failure aborts `add_documents` by
re-raising (the error propagates to the caller), but `query` catches the
failure internally and returns the empty list instead of propagating it. -/
theorem embedding_failure_propagation
    (e : String) (coll : List String) (documents : List String)
    (emb1 : String → Except String (List ℚ))
    (search : List ℚ → Nat → List (List String)) (q : String) (n : Nat)
    (hd : documents ≠ []) (he : emb1 q = Except.error e) :
    (VectorStoreHandler.add_documents (fun _ => Except.error e)
        (some coll) documents).1 = Except.error e ∧
    VectorStoreHandler.query emb1 search (some coll) q n = [] := by
  constructor
  · match documents with
    | [] => exact absurd rfl hd
    | d :: ds =>
      simp only [VectorStoreHandler.add_documents, VectorStoreHandler.addBatches,
        List.length_cons, if_neg (List.cons_ne_nil d ds)]
  · simp only [VectorStoreHandler.query, VectorStoreHandler.query_inner, he]

/-- Witness for `embedding_failure_propagation` with a concrete failing
backend, one document and one query. -/
theorem embedding_failure_propagation_witness :
    (VectorStoreHandler.add_documents (fun _ => Except.error "boom")
        (some ["stored"]) ["doc1"]).1 = Except.error "boom" ∧
    VectorStoreHandler.query (fun _ => Except.error "boom")
      (fun _ _ => [["stored"]]) (some ["stored"]) "question" 5 = [] :=
  embedding_failure_propagation "boom" ["stored"] ["doc1"]
    (fun _ => Except.error "boom") (fun _ _ => [["stored"]]) "question" 5
    (by simp) rfl

/-- C9: calling `query` while the collection handle is still `None` (before
`create_or_load_store`) returns `[]` and raises nothing: the internal
`ValueError("Collection not initialized...")` is raised inside the `try`
and caught by the function's own `except` clause, never reaching the
caller. -/
theorem query_uninitialized_returns_empty
    (emb : String → Except String (List ℚ))
    (search : List ℚ → Nat → List (List String)) (query_text : String) (n_results : Nat) :
    VectorStoreHandler.query emb search none query_text n_results = [] ∧
    VectorStoreHandler.query_inner emb search none query_text n_results =
      Except.error "Collection not initialized. Call create_or_load_store first." :=
  ⟨rfl, rfl⟩

/-- C10: `add_documents` with an empty document list is a no-op in every
handler state (initialized or not): it returns normally (`.ok`), leaves the
collection contents unchanged, and makes no embedding-backend call (empty
call log). -/
theorem add_documents_empty_noop
    (emb : List String → Except String (List (List ℚ)))
    (collection : Option (List String)) :
    VectorStoreHandler.add_documents emb collection [] =
      (Except.ok (), collection, []) :=
  rfl

/-! ## RAG orchestration (src/rag_pipeline.py and desktop_app.py)

The chat-completion backend is an oracle `chat : context → question →
answer`; the modelled functions return the answer together with a flag that
is `true` exactly when the chat backend was invoked. -/

/-- The fixed insufficient-context sentinel of `RAGPipeline.query`. -/
def RAG_SENTINEL : String :=
  "I couldn't find any relevant information in the documents to answer your question."

/-- The fixed insufficient-context sentinel of
`TradingAssistantApp.query_with_rules` / `query_textbook`. -/
def APP_SENTINEL : String :=
  "I don't have enough context to answer that question. Please try asking something else."

/-- `RAGPipeline.query`: retrieve (`vq` is `self.vector_store.query`), and
if no documents come back return the sentinel immediately; otherwise join
the documents into a context and invoke the chat completion.  The second
component records whether `openai.chat.completions.create` was invoked. -/
def RAGPipeline.query (vq : String → List String) (chat : String → String → String)
    (query_text : String) : String × Bool :=
  let relevant_docs := vq query_text
  if relevant_docs = [] then (RAG_SENTINEL, false)
  else (chat (String.intercalate "\n\n" relevant_docs) query_text, true)

/-- The send-message flow of `TradingAssistantApp.handle_send_message`
(the retrieval+generation part): obtain context via `query_with_rules`
(`get_context`), then unconditionally invoke the LLM chain
(`self.chain.invoke({"context": context, "question": message})`).  There is
no sentinel check between the two steps.  The second component records
whether the chain was invoked. -/
def handle_send_message (get_context : String → String)
    (chain : String → String → String) (message : String) : String × Bool :=
  let context := get_context message
  (chain context message, true)

/-- C3 counterexample: in the desktop send-message flow, even when
retrieval yields zero documents and `query_with_rules` hands back the
insufficient-context sentinel, the chat chain IS invoked (with the sentinel
as context) and its output — not the sentinel — is what the flow produces. -/
theorem handle_send_message_always_invokes_chain :
    handle_send_message (fun _ => APP_SENTINEL) (fun _ _ => "llm output") "question" =
      ("llm output", true) := by
  rfl

/-- C3 (amended): `RAGPipeline.query` does short-circuit — zero retrieved
documents yield its fixed sentinel without invoking the chat client — but
the desktop send-message flow does not: `handle_send_message` invokes the
chain on every message, whatever context (sentinel included)
`query_with_rules` returned. -/
theorem empty_context_fallback
    (vq : String → List String) (chat : String → String → String)
    (get_context : String → String) (chain : String → String → String)
    (query_text message : String) (hv : vq query_text = []) :
    RAGPipeline.query vq chat query_text = (RAG_SENTINEL, false) ∧
    (handle_send_message get_context chain message).2 = true := by
  constructor
  · simp [RAGPipeline.query, hv]
  · rfl

/-- Witness for `empty_context_fallback` with an empty retriever and a
concrete chain. -/
theorem empty_context_fallback_witness :
    RAGPipeline.query (fun _ => []) (fun _ _ => "llm output") "q" = (RAG_SENTINEL, false) ∧
    (handle_send_message (fun _ => APP_SENTINEL) (fun _ _ => "llm output") "q").2 = true :=
  empty_context_fallback (fun _ => []) (fun _ _ => "llm output")
    (fun _ => APP_SENTINEL) (fun _ _ => "llm output") "q" "q" rfl

/-! ## Desktop ingestion retry loop (desktop_app.py, `load_textbook`)

Transient commit failures are an environment oracle
`fails : Nat → Nat → Bool`: `fails b r = true` means the `r`-th attempt
(`r ∈ {0, 1, 2}`) to commit the `b`-th batch raises. -/

/-- The inner retry loop of `load_textbook`:
`for retry in range(3): try: collection.add(batch); break
 except: if retry == 3 - 1: raise e; sleep(1)`.
Takes the list of remaining attempt indices (initially `List.range 3`);
`.ok` = the commit succeeded (`break`), `.error` = retries exhausted
(`raise`). -/
def retryCommit (fails : Nat → Bool) : List Nat → Except String Unit
  | [] => Except.ok ()
  | r :: rest =>
    if fails r then
      if r = 3 - 1 then Except.error "commit failed" else retryCommit fails rest
    else Except.ok ()

/-- The batch loop of `load_textbook`:
`for i in range(0, len(text_chunks), 5): batch = text_chunks[i:i+5]; <retry loop>`.
Fuel-indexed (each iteration consumes 5 ≥ 1 chunks); `b` counts batches
(the `b`-th batch starts at offset `5*b`).  Returns the committed records
and `some error` if a batch exhausted its retries — in which case the
commits made so far are kept (no rollback) and the remaining batches are
not attempted. -/
def loadBatchesRetry (fails : Nat → Nat → Bool) :
    Nat → Nat → List String → List String → List String × Option String
  | _, _, committed, [] => (committed, none)
  | 0, _, committed, _ :: _ => (committed, none)
  | fuel + 1, b, committed, c :: cs =>
    let batch := (c :: cs).take 5
    match retryCommit (fails b) (List.range 3) with
    | Except.ok _ => loadBatchesRetry fails fuel (b + 1) (committed ++ batch) ((c :: cs).drop 5)
    | Except.error e => (committed, some e)

/-- The store-commit phase of `TradingAssistantApp.load_textbook` on an
already-chunked text: commit the chunks in batches of 5, each batch retried
up to 3 times.  Starts from an empty collection. -/
def load_textbook_commits (fails : Nat → Nat → Bool) (text_chunks : List String) :
    List String × Option String :=
  loadBatchesRetry fails text_chunks.length 0 [] text_chunks

theorem retryCommit_ok (fails : Nat → Bool) (h : ∃ r, r < 3 ∧ fails r = false) :
    retryCommit fails (List.range 3) = Except.ok () := by
  have hr : List.range 3 = [0, 1, 2] := rfl
  rw [hr]
  obtain ⟨r, hr3, hf⟩ := h
  cases h0 : fails 0 <;> cases h1 : fails 1 <;> cases h2 : fails 2 <;>
    simp [retryCommit, h0, h1, h2] <;>
    (interval_cases r <;> simp_all)

theorem retryCommit_err (fails : Nat → Bool) (h : ∀ r, r < 3 → fails r = true) :
    retryCommit fails (List.range 3) = Except.error "commit failed" := by
  have hr : List.range 3 = [0, 1, 2] := rfl
  rw [hr]
  simp [retryCommit, h 0 (by omega), h 1 (by omega), h 2 (by omega)]

theorem loadBatchesRetry_all_ok (fails : Nat → Nat → Bool) :
    ∀ (fuel : Nat) (b : Nat) (committed chunks : List String),
      chunks.length ≤ fuel →
      (∀ j, ∃ r, r < 3 ∧ fails (b + j) r = false) →
      loadBatchesRetry fails fuel b committed chunks = (committed ++ chunks, none) := by
  intro fuel
  induction fuel with
  | zero =>
    intro b committed chunks hlen _
    match chunks with
    | [] => simp [loadBatchesRetry]
    | c :: cs => simp at hlen
  | succ n ih =>
    intro b committed chunks hlen hok
    match chunks with
    | [] => simp [loadBatchesRetry]
    | c :: cs =>
      have h0 : retryCommit (fails b) (List.range 3) = Except.ok () := by
        have := hok 0
        rw [Nat.add_zero] at this
        exact retryCommit_ok _ this
      simp only [loadBatchesRetry, h0]
      rw [ih (b + 1) (committed ++ (c :: cs).take 5) ((c :: cs).drop 5)]
      · rw [List.append_assoc, List.take_append_drop]
      · have : ((c :: cs).drop 5).length = (c :: cs).length - 5 := List.length_drop _ _
        have h1 : (c :: cs).length ≤ n + 1 := hlen
        omega
      · intro j
        have := hok (j + 1)
        rwa [show b + (j + 1) = b + 1 + j by omega] at this

theorem loadBatchesRetry_fails_at (fails : Nat → Nat → Bool) :
    ∀ (fuel : Nat) (b : Nat) (committed chunks : List String) (k : Nat),
      chunks.length ≤ fuel →
      (∀ j, j < k → ∃ r, r < 3 ∧ fails (b + j) r = false) →
      (∀ r, r < 3 → fails (b + k) r = true) →
      5 * k < chunks.length →
      loadBatchesRetry fails fuel b committed chunks =
        (committed ++ chunks.take (5 * k), some "commit failed") := by
  intro fuel
  induction fuel with
  | zero =>
    intro b committed chunks k hlen _ _ hk
    omega
  | succ n ih =>
    intro b committed chunks k hlen hpre hbad hk
    match chunks with
    | [] => simp at hk
    | c :: cs =>
      match k with
      | 0 =>
        have h0 : retryCommit (fails b) (List.range 3) = Except.error "commit failed" := by
          have := hbad
          rw [Nat.add_zero] at this
          exact retryCommit_err _ this
        simp [loadBatchesRetry, h0]
      | k + 1 =>
        have h0 : retryCommit (fails b) (List.range 3) = Except.ok () := by
          have := hpre 0 (by omega)
          rw [Nat.add_zero] at this
          exact retryCommit_ok _ this
        simp only [loadBatchesRetry, h0]
        rw [ih (b + 1) (committed ++ (c :: cs).take 5) ((c :: cs).drop 5) k]
        · rw [List.append_assoc]
          congr 2
          rw [show 5 * (k + 1) = 5 + 5 * k by ring, List.take_add]
        · have : ((c :: cs).drop 5).length = (c :: cs).length - 5 := List.length_drop _ _
          have h1 : (c :: cs).length ≤ n + 1 := hlen
          omega
        · intro j hj
          have := hpre (j + 1) (by omega)
          rwa [show b + (j + 1) = b + 1 + j by omega] at this
        · rwa [show b + 1 + k = b + (k + 1) by omega]
        · have : ((c :: cs).drop 5).length = (c :: cs).length - 5 := List.length_drop _ _
          omega

/-- C7: each batch commit is attempted up to 3 times.  (1) If every batch
fails transiently fewer than 3 times (some attempt `r < 3` succeeds), the
whole ingestion succeeds and the collection contains exactly the submitted
chunks.  (2) If the `k`-th batch fails 3 times in a row (earlier batches
succeeding), the failure is raised: the collection holds exactly the
records of the earlier batches — not the failed batch's — and the
remaining batches are not attempted. -/
theorem retry_bound (fails : Nat → Nat → Bool) (text_chunks : List String) :
    ((∀ b, ∃ r, r < 3 ∧ fails b r = false) →
      load_textbook_commits fails text_chunks = (text_chunks, none)) ∧
    (∀ k, (∀ j, j < k → ∃ r, r < 3 ∧ fails j r = false) →
      (∀ r, r < 3 → fails k r = true) →
      5 * k < text_chunks.length →
      load_textbook_commits fails text_chunks =
        (text_chunks.take (5 * k), some "commit failed")) := by
  constructor
  · intro hok
    have := loadBatchesRetry_all_ok fails text_chunks.length 0 [] text_chunks le_rfl
      (by intro j; simpa using hok j)
    simpa [load_textbook_commits] using this
  · intro k hpre hbad hk
    have := loadBatchesRetry_fails_at fails text_chunks.length 0 [] text_chunks k le_rfl
      (by intro j hj; simpa using hpre j hj) (by simpa using hbad) hk
    simpa [load_textbook_commits] using this

/-- Witness for `retry_bound`: with a schedule whose first batch fails once
then succeeds, seven chunks are all committed; with a schedule that always
fails, nothing is committed and the failure is raised after the first
batch. -/
theorem retry_bound_witness :
    load_textbook_commits (fun b r => b = 0 ∧ r = 0) ["c1", "c2", "c3", "c4", "c5", "c6", "c7"] =
      (["c1", "c2", "c3", "c4", "c5", "c6", "c7"], none) ∧
    load_textbook_commits (fun _ _ => true) ["c1", "c2"] = ([], some "commit failed") :=
  ⟨(retry_bound (fun b r => decide (b = 0 ∧ r = 0)) _).1
      (fun b => ⟨1, by omega, by simp⟩),
   (retry_bound (fun _ _ => true) _).2 0
      (fun j hj => absurd hj (Nat.not_lt_zero j))
      (fun r _ => rfl) (by simp)⟩

/-! ## HTTP endpoint POST /analyze-market (main.py)

The market-analysis handler outcome is an oracle
`handler : Except String (List (String × String))`: `.ok result` models
`rag_pipeline.analyze_market(symbol)` returning a dict (a key/value list,
which may contain an `"error"` entry), `.error e` models it raising. -/

/-- The `/analyze-market` route of `main.py`:
`try: analysis = rag_pipeline.analyze_market(query.symbol); return analysis
 except Exception as e: raise HTTPException(status_code=500, detail=str(e))`.
Returns (HTTP status, body).  A returned dict — error report included —
is sent as-is with status 200; there is no check for an `"error"` key;
only a raised exception produces a non-200 status (500). -/
def analyze_market_endpoint (handler : Except String (List (String × String))) :
    Nat × List (String × String) :=
  match handler with
  | Except.ok analysis => (200, analysis)
  | Except.error e => (500, [("detail", e)])

/-- The `/analyze` route of `src/api.py` (the only route that inspects the
result for an `"error"` key): `if "error" in result: raise
HTTPException(status_code=400, detail=result["error"])` — but that raise
happens inside the same `try`, whose `except Exception as e` catches the
`HTTPException` (a subclass of `Exception`) and re-raises it as
`HTTPException(500, str(e))`, `str` of a starlette `HTTPException` being
`"<status>: <detail>"`. -/
def analyze_endpoint_api (handler : Except String (List (String × String))) :
    Nat × List (String × String) :=
  match handler with
  | Except.error e => (500, [("detail", e)])
  | Except.ok result =>
    if result.any (fun kv => kv.1 == "error") then
      (500, [("detail", "400: " ++
        (((result.find? (fun kv => kv.1 == "error")).map Prod.snd).getD ""))])
    else (200, result)

/-- C8 counterexample: a handler result carrying an error report
(`{"error": "no data found"}`) is returned by POST /analyze-market with
HTTP status 200, not 400. -/
theorem analyze_market_error_status_counterexample :
    (analyze_market_endpoint (Except.ok [("error", "no data found")])).1 = 200 ∧
    decide ((analyze_market_endpoint (Except.ok [("error", "no data found")])).1 = 400)
      = false := by
  exact ⟨rfl, by decide⟩

/-- C8 (amended): POST /analyze-market performs no error-report check: a
handler result is returned as the body with status 200 even when it
contains an error report, and status 500 is produced exactly when the
handler raises.  (The error-key check lives only on the /analyze route of
`src/api.py`, and even there the raised 400 is caught by the route's own
catch-all and converted to a 500, so neither route ever answers 400.) -/
theorem analyze_market_endpoint_statuses
    (handler : Except String (List (String × String))) :
    (∀ d, handler = Except.ok d → analyze_market_endpoint handler = (200, d)) ∧
    (∀ e, handler = Except.error e →
      analyze_market_endpoint handler = (500, [("detail", e)])) ∧
    (∀ d, handler = Except.ok d → (d.any (fun kv => kv.1 == "error")) = true →
      (analyze_endpoint_api handler).1 = 500) := by
  refine ⟨?_, ?_, ?_⟩
  · intro d hd; subst hd; rfl
  · intro e he; subst he; rfl
  · intro d hd herr
    subst hd
    simp [analyze_endpoint_api, herr]

/-- Witness for `analyze_market_endpoint_statuses` at a successful result,
a raising handler, and a result carrying an error report. -/
theorem analyze_market_endpoint_statuses_witness :
    analyze_market_endpoint (Except.ok [("symbol", "AAPL")]) = (200, [("symbol", "AAPL")]) ∧
    analyze_market_endpoint (Except.error "boom") = (500, [("detail", "boom")]) ∧
    (analyze_endpoint_api (Except.ok [("error", "no data")])).1 = 500 :=
  ⟨(analyze_market_endpoint_statuses (Except.ok [("symbol", "AAPL")])).1 _ rfl,
   (analyze_market_endpoint_statuses (Except.error "boom")).2.1 _ rfl,
   (analyze_market_endpoint_statuses (Except.ok [("error", "no data")])).2.2 _ rfl (by decide)⟩

end RAGChatBot
